import Mathlib

/-!
# Verification of the ACP runtime core (`acp.core` / `acp.connection`)

A shallow embedding of the JSON-RPC 2.0 connection and dispatch logic of the
`agent-client-protocol` Python package, together with proofs about the frame
classification, request-id allocation, pending table, error wrapping, optional
method dispatch, extension routing, and result serialization.

Conventions of the embedding:

* JSON values are the inductive `Json` below; a parsed frame (a Python `dict`)
  is the field list of a `Json.obj`, ordered as insertion order, with unique
  keys (as `json.loads` produces).
* Python `None` is represented by `Json.null` where it flows into JSON data,
  and by `Option.none` where the code distinguishes "absent".
* `message.get(k)` returning Python `None` conflates an absent key and a
  stored JSON `null`; `pyGet` mirrors that. `"k" in message` is `hasKey`.
* Pydantic models are lists of fields carrying their wire value and schema
  default (`Option Json`, `none` for required fields without default).
* Async handlers are pure functions returning an `Outcome`: a returned value,
  or one of the exception families the connection layer distinguishes
  (`RequestError`, pydantic `ValidationError`, anything else as its `str`).
-/

namespace Acp

/-- JSON values as produced by `json.loads`: objects keep insertion order.
`num` is a Python `int`; `float` is a Python `float` parsed from a real
literal, carried as the literal's exact decimal value (see `jsonLoads` for
the abstraction this makes); `nan` and `inf` are the non-finite floats the
Python parser accepts through its `NaN`/`Infinity`/`-Infinity` extension. -/
inductive Json where
  | null
  | bool (b : Bool)
  | num (n : Int)
  | float (q : Rat)
  | nan
  | inf (neg : Bool)
  | str (s : String)
  | arr (elems : List Json)
  | obj (fields : List (String × Json))
  deriving Repr, Inhabited

mutual

/-- Structural equality of JSON values (Python `==` on parsed JSON data):
an `int` and an integral `float` compare equal, and `float('nan')` is not
equal to itself. -/
def Json.beq (x y : Json) : Bool :=
  match x, y with
  | .obj fx, .obj fy => Json.beqFields fx fy
  | .arr ex, .arr ey => Json.beqList ex ey
  | .str sx, .str sy => sx == sy
  | .num nx, .num ny => nx == ny
  | .num nx, .float qy => (nx : Rat) == qy
  | .float qx, .num ny => qx == (ny : Rat)
  | .float qx, .float qy => qx == qy
  | .inf nx, .inf ny => nx == ny
  | .nan, .nan => false
  | .bool bx, .bool bz => bx == bz
  | .null, .null => true
  | _, _ => false

/-- Elementwise equality of JSON arrays. -/
def Json.beqList (xs ys : List Json) : Bool :=
  match xs, ys with
  | u :: us, v :: vs => Json.beq u v && Json.beqList us vs
  | [], [] => true
  | _, _ => false

/-- Elementwise equality of JSON object field lists. -/
def Json.beqFields (xs ys : List (String × Json)) : Bool :=
  match xs, ys with
  | (ka, va) :: us, (kb, vb) :: vs =>
      ka == kb && Json.beq va vb && Json.beqFields us vs
  | [], [] => true
  | _, _ => false

end

instance : BEq Json := ⟨Json.beq⟩

/-- Python `method == "<literal>"` where `method` holds an arbitrary JSON
value: equal exactly when it is that string (comparison across types is
`False` in Python). -/
def Json.isStr (v : Json) (s : String) : Bool :=
  match v with
  | .str t => t == s
  | _ => false

/-- A parsed frame: the field list of a JSON object (a Python `dict`). -/
abbrev Frame := List (String × Json)

/-- `k in message` on a Python dict. -/
def hasKey (msg : Frame) (k : String) : Bool :=
  (msg.lookup k).isSome

/-- `message.get(k)`: Python `None` when the key is absent *or* stores JSON
`null` (both parse to Python `None`). -/
def pyGet (msg : Frame) (k : String) : Option Json :=
  match msg.lookup k with
  | some Json.null => none
  | v => v

/-- `message[k]` where the caller has established the key is present. -/
def getIndex (msg : Frame) (k : String) : Json :=
  (msg.lookup k).getD Json.null

example : pyGet [("method", Json.str ("initialize"))] "method" = some (Json.str ("initialize")) := by
  rfl

example : pyGet [("method", Json.null)] "method" = none := by rfl

example : hasKey [("id", Json.null)] "id" = true := by rfl

/-! ## Pydantic models

A schema model instance is a list of fields, each carrying its wire name, its
current value in wire form, and the schema default (`none` for a required
field without default). -/

/-- One field of a pydantic model instance. -/
structure ModelField where
  name : String
  value : Json
  default : Option Json
  deriving Repr

/-- A pydantic model instance (`BaseModel`). -/
abbrev Model := List ModelField

/-- `model.model_dump()` with no arguments (used by `Connection._handle_request`
on a `BaseModel` result): every field is emitted with its current value —
no `exclude_none`, no `exclude_defaults`. -/
def model_dump (m : Model) : Json :=
  .obj (m.map fun f => (f.name, f.value))

/-- `_dump_params`: `model_dump(exclude_none=True, exclude_defaults=True)` —
drop fields whose value is `None` and fields whose value equals the schema
default. -/
def dump_params (m : Model) : Json :=
  .obj ((m.filter fun f =>
    !(f.value == Json.null) && !(f.default == some f.value)).map fun f => (f.name, f.value))

/-! ## Handler outcomes

A dispatch handler either returns a Python value or raises. The connection
layer distinguishes three exception families (`RequestError`, pydantic
`ValidationError`, everything else by its `str`). -/

/-- A Python value returned by a handler: `None`, a `BaseModel`, or plain
JSON data (e.g. a `dict`). -/
inductive PyVal where
  | vNone
  | vModel (m : Model)
  | vJson (j : Json)
  deriving Repr

/-- The outcome of awaiting a handler. -/
inductive Outcome where
  | ok (v : PyVal)
  | errRequest (code : Int) (message : String) (data : Json)
  | errValidation (errors : Json)
  | errOther (excStr : String)
  deriving Repr

/-- `RequestError.method_not_found(method)`: code `-32601`, message
`"Method not found"`, data `{"method": method}`. -/
def methodNotFound (method : Json) : Outcome :=
  .errRequest (-32601) "Method not found" (.obj [("method", method)])

/-- The connection's `MethodHandler`: `(method, params, is_notification)`.
The method is the raw `message["method"]` value; params is
`message.get("params")`. -/
def Handler := Json → Option Json → Bool → Outcome

/-- `RequestError.to_error_obj`: `{"code": .., "message": .., "data": ..}`
(the `data` key is always present, `null` for `None`). -/
def errorObj (code : Int) (message : String) (data : Json) : Json :=
  .obj [("code", .num code), ("message", .str message), ("data", data)]

/-! ## `json.loads` on exception strings

`Connection._handle_request` tries `json.loads(str(exc))` on an unhandled
exception. We embed the grammar of Python's `json` module in its default
(strict) configuration: objects (with `dict` duplicate-key semantics),
arrays, strings with the standard escapes and `\uXXXX` (surrogate pairs
combined), the exact number grammar
`-?(0|[1-9][0-9]*)(\.[0-9]+)?([eE][+-]?[0-9]+)?` — a plain integer literal
parses to a Python `int`, anything with a fraction or exponent to a
`float` — the literals `null`/`true`/`false`, and the Python extensions
`NaN`/`Infinity`/`-Infinity`, with JSON whitespace between tokens. -/

/-- JSON whitespace characters. -/
def isJsonWs (c : Char) : Bool :=
  c = ' ' || c = '\t' || c = '\n' || c = '\r'

/-- Skip leading JSON whitespace. -/
def skipWs : List Char → List Char
  | c :: cs => if isJsonWs c then skipWs cs else c :: cs
  | [] => []

/-- The value of a hexadecimal digit. -/
def hexVal (c : Char) : Option Nat :=
  if '0' ≤ c ∧ c ≤ '9' then some (c.toNat - '0'.toNat)
  else if 'a' ≤ c ∧ c ≤ 'f' then some (c.toNat - 'a'.toNat + 10)
  else if 'A' ≤ c ∧ c ≤ 'F' then some (c.toNat - 'A'.toNat + 10)
  else none

/-- The four hex digits of a `\uXXXX` escape. -/
def parseHex4 : List Char → Option (Nat × List Char)
  | a :: b :: c :: d :: rest =>
      (match hexVal a, hexVal b, hexVal c, hexVal d with
       | some w, some x, some y, some z =>
           some (((w * 16 + x) * 16 + y) * 16 + z, rest)
       | _, _, _, _ => none)
  | _ => none

/-- Decode one character of a JSON string body, as `py_scanstring` does: a
plain character (raw control characters below `0x20` are rejected in strict
mode), a standard escape, or a `\uXXXX` escape. A high-surrogate escape
immediately followed by a low-surrogate escape combines into one code
point; any other `\uXXXX` stands alone — `json.loads` then yields the bare
surrogate code point, which no Lean `Char` can carry, so it goes through
`Char.ofNat` (mapping it to `'\0'`). Returns `none` at the closing quote,
at a bad escape, and at the end of input. -/
def decodeStringChar (cs : List Char) : Option (Char × List Char) :=
  match cs with
  | '"' :: _ => none
  | '\\' :: esc :: rest =>
      (match esc with
       | '"' => some ('"', rest)
       | '\\' => some ('\\', rest)
       | '/' => some ('/', rest)
       | 'b' => some (Char.ofNat 8, rest)
       | 'f' => some (Char.ofNat 12, rest)
       | 'n' => some ('\n', rest)
       | 'r' => some ('\r', rest)
       | 't' => some ('\t', rest)
       | 'u' =>
           (match parseHex4 rest with
            | none => none
            | some (n, r₁) =>
                if 0xD800 ≤ n ∧ n ≤ 0xDBFF then
                  match r₁ with
                  | '\\' :: 'u' :: r₂ =>
                      (match parseHex4 r₂ with
                       | none => none
                       | some (m, r₃) =>
                           if 0xDC00 ≤ m ∧ m ≤ 0xDFFF then
                             some (Char.ofNat
                               (0x10000 + (n - 0xD800) * 0x400 + (m - 0xDC00)), r₃)
                           else some (Char.ofNat n, r₁))
                  | _ => some (Char.ofNat n, r₁)
                else some (Char.ofNat n, r₁))
       | _ => none)
  | '\\' :: [] => none
  | c :: rest => if c.toNat < 32 then none else some (c, rest)
  | [] => none

/-- The body of a JSON string literal after its opening quote; the fuel is
at least the length of the input, and every step consumes a character. -/
def parseStringBody : Nat → List Char → Option (String × List Char)
  | 0, _ => none
  | fuel + 1, cs =>
      match cs with
      | '"' :: rest => some ("", rest)
      | _ =>
          match decodeStringChar cs with
          | some (c, r) =>
              (match parseStringBody fuel r with
               | some (s, r₂) => some (⟨c :: s.data⟩, r₂)
               | none => none)
          | none => none

/-- A whole JSON string literal, from just after its opening quote. -/
def parseString (cs : List Char) : Option (String × List Char) :=
  parseStringBody (cs.length + 1) cs

/-- Split off a (possibly empty) run of decimal digits. -/
def digitSpan (cs : List Char) : List Char × List Char :=
  cs.span (fun c => c.isDigit)

/-- The natural number a run of decimal digits denotes. -/
def digitsToNat (ds : List Char) : Nat :=
  ds.foldl (fun acc c => acc * 10 + (c.toNat - '0'.toNat)) 0

/-- The integer-part group `(0|[1-9][0-9]*)` of the number grammar: a
leading zero matches exactly `"0"`, leaving any further digit behind as a
syntax error for the surrounding context — exactly how `json.loads`
rejects `007`. -/
def parseIntPart (cs : List Char) : Option (List Char × List Char) :=
  match cs with
  | '0' :: rest => some (['0'], rest)
  | c :: rest =>
      if c.isDigit then
        let (ds, r) := digitSpan rest
        some (c :: ds, r)
      else none
  | [] => none

/-- The optional fraction group `(\.[0-9]+)`: the digits when the group
matches, the input untouched when it does not. -/
def fracGroup (cs : List Char) : Option (List Char) × List Char :=
  match cs with
  | '.' :: r =>
      let (ds, r₂) := digitSpan r
      if ds.isEmpty then (none, cs) else (some ds, r₂)
  | _ => (none, cs)

/-- The optional exponent group `([eE][+-]?[0-9]+)`. -/
def expGroup (cs : List Char) : Option Int × List Char :=
  match cs with
  | c :: rest =>
      if c = 'e' || c = 'E' then
        let signed : Int × List Char :=
          match rest with
          | '+' :: r => (1, r)
          | '-' :: r => (-1, r)
          | _ => (1, rest)
        let (ds, r₂) := digitSpan signed.2
        if ds.isEmpty then (none, cs)
        else (some (signed.1 * (digitsToNat ds : Int)), r₂)
      else (none, cs)
  | [] => (none, [])

/-- The exact decimal value of the real literal with mantissa digits worth
`mant`, `fracLen` digits after the point, and exponent `exp10`. This is
where the embedding abstracts Python floats: the parsed `float` carries
this rational — the rounding of the decimal to the nearest IEEE-754 double
(and its overflow to infinity at extreme exponents) is not modelled. -/
def decimalValue (neg : Bool) (mant : Nat) (fracLen : Nat) (exp10 : Int) : Rat :=
  let m : Int := if neg then -(mant : Int) else (mant : Int)
  match exp10 - (fracLen : Int) with
  | .ofNat e => mkRat (m * ((10 ^ e : Nat) : Int)) 1
  | .negSucc e => mkRat m (10 ^ (e + 1))

/-- A JSON number, by the `json.loads` regex
`(-?(?:0|[1-9]\d*))(\.\d+)?([eE][-+]?\d+)?`: `int(...)` when neither the
fraction nor the exponent group matched, `float(...)` otherwise. -/
def parseNumber (cs : List Char) : Option (Json × List Char) :=
  let signed : Bool × List Char :=
    match cs with
    | '-' :: rest => (true, rest)
    | _ => (false, cs)
  match parseIntPart signed.2 with
  | none => none
  | some (ids, r₁) =>
      let frac := fracGroup r₁
      let exponent := expGroup frac.2
      match frac.1, exponent.1 with
      | none, none =>
          let n : Int := (digitsToNat ids : Int)
          some (.num (if signed.1 then -n else n), exponent.2)
      | _, _ =>
          let fds := (frac.1).getD []
          some (.float (decimalValue signed.1 (digitsToNat (ids ++ fds))
            fds.length ((exponent.1).getD 0)), exponent.2)

/-- Insert one parsed `key: value` pair as `dict.__setitem__` does: an
existing key keeps its position and takes the new value, a new key is
appended. -/
def dictInsert (fields : List (String × Json)) (k : String) (v : Json) :
    List (String × Json) :=
  if fields.any (fun f => f.1 == k) then
    fields.map (fun f => if f.1 == k then (k, v) else f)
  else fields ++ [(k, v)]

/-- `dict(pairs)`: later duplicates overwrite earlier values, first
position kept — the object semantics `json.loads` gives duplicate keys. -/
def dictOfPairs (pairs : List (String × Json)) : List (String × Json) :=
  pairs.foldl (fun acc kv => dictInsert acc kv.1 kv.2) []

mutual

/-- Parse one JSON value; `fuel` bounds the recursion the parser will follow. -/
def parseJsonValue : Nat → List Char → Option (Json × List Char)
  | 0, _ => none
  | fuel + 1, cs =>
    match skipWs cs with
    | 'n' :: 'u' :: 'l' :: 'l' :: rest => some (.null, rest)
    | 't' :: 'r' :: 'u' :: 'e' :: rest => some (.bool true, rest)
    | 'f' :: 'a' :: 'l' :: 's' :: 'e' :: rest => some (.bool false, rest)
    | 'N' :: 'a' :: 'N' :: rest => some (.nan, rest)
    | 'I' :: 'n' :: 'f' :: 'i' :: 'n' :: 'i' :: 't' :: 'y' :: rest =>
        some (.inf false, rest)
    | '-' :: 'I' :: 'n' :: 'f' :: 'i' :: 'n' :: 'i' :: 't' :: 'y' :: rest =>
        some (.inf true, rest)
    | '"' :: rest =>
        (match parseString rest with
         | some (s, r) => some (.str s, r)
         | none => none)
    | '[' :: rest =>
        (match skipWs rest with
         | ']' :: r => some (.arr [], r)
         | other =>
            match parseArrayItems fuel other with
            | some (xs, r) => some (.arr xs, r)
            | none => none)
    | '{' :: rest =>
        (match skipWs rest with
         | '}' :: r => some (.obj [], r)
         | other =>
            match parseObjectItems fuel other with
            | some (fs, r) => some (.obj (dictOfPairs fs), r)
            | none => none)
    | other =>
        match parseNumber other with
        | some (v, r) => some (v, r)
        | none => none

/-- Parse comma-separated array elements up to the closing bracket. -/
def parseArrayItems : Nat → List Char → Option (List Json × List Char)
  | 0, _ => none
  | fuel + 1, cs =>
      match parseJsonValue fuel cs with
      | some (v, r) =>
          match skipWs r with
          | ',' :: r2 =>
              (match parseArrayItems fuel r2 with
               | some (xs, r3) => some (v :: xs, r3)
               | none => none)
          | ']' :: r2 => some ([v], r2)
          | _ => none
      | none => none

/-- Parse comma-separated `"key": value` pairs up to the closing brace. -/
def parseObjectItems : Nat → List Char → Option (List (String × Json) × List Char)
  | 0, _ => none
  | fuel + 1, cs =>
      match skipWs cs with
      | '"' :: rest =>
          match parseString rest with
          | some (k, r) =>
              match skipWs r with
              | ':' :: r2 =>
                  (match parseJsonValue fuel r2 with
                   | some (v, r3) =>
                      match skipWs r3 with
                      | ',' :: r4 =>
                          (match parseObjectItems fuel r4 with
                           | some (fs, r5) => some ((k, v) :: fs, r5)
                           | none => none)
                      | '}' :: r4 => some ([(k, v)], r4)
                      | _ => none
                   | none => none)
              | _ => none
          | none => none
      | _ => none

end

/-- `json.loads` on a whole string: one JSON value, optionally surrounded by
whitespace, consuming the entire input; `none` models the `ValueError` the
Python call raises on invalid input. -/
def jsonLoads (s : String) : Option Json :=
  match parseJsonValue (2 * s.length + 2) s.data with
  | some (v, rest) => if (skipWs rest).isEmpty then some v else none
  | none => none

example : jsonLoads ("boom") = none := by rfl

example : jsonLoads (" \x7b\"a\": [1, -2], \"b\": \"x\"\x7d ") =
    some (.obj [("a", .arr [.num 1, .num (-2)]), ("b", .str ("x"))]) := by rfl

example : jsonLoads ("null") = some .null := by rfl

example : jsonLoads ("3.14") = some (.float (mkRat 157 50)) := by rfl

example : jsonLoads ("1e3") = some (.float (mkRat 1000 1)) := by rfl

example : jsonLoads ("-2.5e-1") = some (.float (mkRat (-1) 4)) := by rfl

example : jsonLoads ("007") = none := by rfl

example : jsonLoads ("[01]") = none := by rfl

example : jsonLoads ("0") = some (.num 0) := by rfl

example : jsonLoads ("1.") = none := by rfl

example : jsonLoads ("\"a\\nb\"") = some (.str "a\nb") := by rfl

example : jsonLoads ("\"a\\u0041b\"") = some (.str "aAb") := by rfl

example : jsonLoads ("\"\\ud83d\\ude00\"") = some (.str "😀") := by rfl

example : jsonLoads ("\"a\nb\"") = none := by rfl

example : jsonLoads ("\"a\\xb\"") = none := by rfl

example : jsonLoads ("NaN") = some .nan := by rfl

example : jsonLoads ("-Infinity") = some (.inf true) := by rfl

example : jsonLoads ("\x7b\"a\": 1, \"b\": 2, \"a\": 3\x7d") =
    some (.obj [("a", .num 3), ("b", .num 2)]) := by rfl

/-! ## `Connection` (`acp/core.py` / `acp/connection.py`)

The connection state the claims touch: the next-request-id counter and the
pending table (keys of `self._pending`; the sinks themselves are one-shot
futures, whose settlement we surface as a `SettleAction`). -/

/-- The per-connection mutable state of `Connection.__init__`. -/
structure ConnState where
  nextId : Int
  pending : List Int
  deriving Repr

/-- State right after `Connection.__init__`. -/
def initConn : ConnState := { nextId := 0, pending := [] }

/-- `Connection.send_request`: allocate the id, bump the counter, install the
pending sink, and emit the request frame (the `params` key is always present,
`null` for `None`). -/
def send_request (s : ConnState) (method : String) (params : Json) :
    ConnState × Frame :=
  let requestId := s.nextId
  ({ nextId := requestId + 1, pending := s.pending ++ [requestId] },
   [("jsonrpc", .str ("2.0")), ("id", .num requestId),
    ("method", .str method), ("params", params)])

/-- A sequence of `send_request` calls on one connection, collecting the
emitted request frames in order. -/
def sendAll (s : ConnState) (calls : List (String × Json)) :
    ConnState × List Frame :=
  match calls with
  | [] => (s, [])
  | (m, p) :: rest =>
      let (s', frame) := send_request s m p
      let (s'', frames) := sendAll s' rest
      (s'', frame :: frames)

/-- How a pending future is settled: `set_result` or `set_exception` with a
`RequestError`. -/
inductive SettleAction where
  | result (v : Json)
  | error (code : Int) (message : String) (data : Json)
  deriving Repr

/-- `error_obj = message.get("error") or {}` — the error object's fields
(`{}` when the key is absent or holds `null`; an inbound error value is a
JSON object on any frame the code can process). -/
def errorField (msg : Frame) : Frame :=
  match pyGet msg ("error") with
  | some (.obj fs) => fs
  | _ => []

/-- `error_obj.get("code", -32603)` (an inbound error code is an integer on
any frame the code can process). -/
def errorCode (fs : Frame) : Int :=
  match fs.lookup ("code") with
  | some (.num n) => n
  | _ => -32603

/-- `error_obj.get("message", "Error")`. -/
def errorMessage (fs : Frame) : String :=
  match fs.lookup ("message") with
  | some (.str s) => s
  | _ => "Error"

/-- `error_obj.get("data")`. -/
def errorData (fs : Frame) : Json :=
  (fs.lookup ("data")).getD .null

/-- The pending-table key an inbound `id` value can reach: the table's keys
are the `int` ids `send_request` allocated, and Python dict lookup uses
numeric equality, so an integral `float` id (`3.0 == 3`) also reaches its
entry; any other value matches no key. -/
def idKey : Json → Option Int
  | .num k => some k
  | .float q => if q.den = 1 then some q.num else none
  | _ => none

/-- `Connection._handle_response`: pop the pending entry for the frame's id
(drop the frame silently when there is none), then settle it — with the
`result` value if a `result` key is present, with a `RequestError` if an
`error` key is present, and with `None` otherwise. -/
def handle_response (s : ConnState) (msg : Frame) :
    ConnState × Option (Int × SettleAction) :=
  match (msg.lookup ("id")).bind idKey with
  | some k =>
      if k ∈ s.pending then
        let s' : ConnState := { s with pending := s.pending.erase k }
        if hasKey msg ("result") then
          (s', some (k, .result (getIndex msg ("result"))))
        else if hasKey msg ("error") then
          let fs := errorField msg
          (s', some (k, .error (errorCode fs) (errorMessage fs) (errorData fs)))
        else
          (s', some (k, .result .null))
      else (s, none)
  | none => (s, none)

/-- `data = json.loads(str(exc))` falling back to
`{"details": str(exc)}` when the exception's string form is not JSON. -/
def internalErrorData (excStr : String) : Json :=
  match jsonLoads excStr with
  | some j => j
  | none => .obj [("details", .str excStr)]

/-- How a handler's return value lands in `payload["result"]`: a `BaseModel`
goes through a plain `model_dump()`, `None` becomes JSON `null`, anything
else is emitted as-is. -/
def resultJson : PyVal → Json
  | .vNone => .null
  | .vModel m => model_dump m
  | .vJson j => j

/-- `Connection._handle_request`: run the handler and build the response
frame — success carries `result`; a `RequestError` is forwarded verbatim; a
`ValidationError` becomes `invalid_params` with the errors under
`data.errors`; any other exception becomes `internal_error`. -/
def handle_request (handler : Handler) (msg : Frame) : Frame :=
  let head : Frame := [("jsonrpc", .str ("2.0")), ("id", getIndex msg ("id"))]
  match handler (getIndex msg ("method")) (pyGet msg ("params")) false with
  | .ok v => head ++ [("result", resultJson v)]
  | .errRequest c m d => head ++ [("error", errorObj c m d)]
  | .errValidation errs =>
      head ++ [("error", errorObj (-32602) "Invalid params" (.obj [("errors", errs)]))]
  | .errOther excStr =>
      head ++ [("error", errorObj (-32603) "Internal error" (internalErrorData excStr))]

/-- `Connection._handle_notification`: invoke the handler with
`is_notification = True`; its outcome (exceptions included) is suppressed. -/
def handle_notification (handler : Handler) (msg : Frame) : Outcome :=
  handler (getIndex msg ("method")) (pyGet msg ("params")) true

/-- The classification `Connection._process_message` performs on an inbound
frame, from `message.get("method")` and `"id" in message`. -/
inductive FrameClass where
  | request
  | notification
  | response
  | ignored
  deriving Repr, DecidableEq

/-- Classify an inbound frame exactly as `_process_message` does. -/
def classify (msg : Frame) : FrameClass :=
  match pyGet msg ("method"), hasKey msg ("id") with
  | some _, true => .request
  | some _, false => .notification
  | none, true => .response
  | none, false => .ignored

/-- Everything one inbound frame causes: the connection state afterwards,
the frames emitted in response, the settlement of a pending sink (if any),
and the suppressed outcome of a notification handler (if one ran). -/
structure StepResult where
  state : ConnState
  sent : List Frame
  settled : Option (Int × SettleAction)
  notified : Option Outcome
  deriving Repr

/-- `Connection._process_message`: a request is dispatched to a handler task
that emits exactly its response frame; a notification runs the handler inline
and emits nothing; a response settles the pending table; anything else is
dropped. -/
def process_message (handler : Handler) (s : ConnState) (msg : Frame) :
    StepResult :=
  match classify msg with
  | .request => ⟨s, [handle_request handler msg], none, none⟩
  | .notification => ⟨s, [], none, some (handle_notification handler msg)⟩
  | .response =>
      let (s', a) := handle_response s msg
      ⟨s', [], a, none⟩
  | .ignored => ⟨s, [], none, none⟩

/-! ## Method tables and schema boundary

`acp/meta.py` and `acp/schema.py` are not among the provided sources; the
wire method names and the validation boundary are modelled from the spec. -/

/-- Modelled from the spec: `AGENT_METHODS` of `acp.meta` (file not among the
provided sources); the exact wire strings are listed in spec §6. -/
def agentMethods : List (String × String) :=
  [("initialize", "initialize"),
   ("authenticate", "authenticate"),
   ("session_new", "session/new"),
   ("session_load", "session/load"),
   ("session_set_mode", "session/set_mode"),
   ("session_set_model", "session/set_model"),
   ("session_prompt", "session/prompt"),
   ("session_cancel", "session/cancel")]

/-- `AGENT_METHODS[key]`. -/
def agentMethodName (key : String) : String :=
  (agentMethods.lookup key).getD ("")

/-- Modelled from the spec: `CLIENT_METHODS` of `acp.meta` (file not among
the provided sources); the exact wire strings are listed in spec §6. -/
def clientMethods : List (String × String) :=
  [("session_update", "session/update"),
   ("session_request_permission", "session/request_permission"),
   ("fs_read_text_file", "fs/read_text_file"),
   ("fs_write_text_file", "fs/write_text_file"),
   ("terminal_create", "terminal/create"),
   ("terminal_output", "terminal/output"),
   ("terminal_release", "terminal/release"),
   ("terminal_wait_for_exit", "terminal/wait_for_exit"),
   ("terminal_kill", "terminal/kill")]

/-- `CLIENT_METHODS[key]`. -/
def clientMethodName (key : String) : String :=
  (clientMethods.lookup key).getD ("")

/-- Modelled from the spec: the pydantic `model_validate` calls on the
request/notification parameter models generated in `acp.schema` (file not
among the provided sources). The spec fixes which model validates which
method's params (§4.3) but not the models' fields, so validation is carried
as an environment: `validate modelName params` yields the validated request
value handed to the implementation, or the validation errors
(`exc.errors()`). -/
structure SchemaEnv where
  validate : String → Option Json → Except Json Json

/-- A schema environment whose validators all succeed, passing the raw
params through (used to instantiate theorems at concrete inputs). -/
def passthroughEnv : SchemaEnv :=
  ⟨fun _ params => .ok (params.getD .null)⟩

/-- Run a validator and continue with the validated request; a validation
failure propagates as the pydantic `ValidationError`. -/
def validateCall (env : SchemaEnv) (modelName : String) (params : Option Json)
    (k : Json → Outcome) : Outcome :=
  match env.validate modelName params with
  | .error errs => .errValidation errs
  | .ok req => k req

/-- `_optional_result`: `None` becomes `{}`, a `BaseModel` is dumped with
`_dump_params`, anything else passes through. -/
def optional_result : PyVal → Json
  | .vNone => .obj []
  | .vModel m => dump_params m
  | .vJson j => j

/-- Feed a handler's outcome through `_optional_result` (exceptions
propagate). -/
def bindOptional : Outcome → Outcome
  | .ok v => .ok (.vJson (optional_result v))
  | e => e

/-- Python truthiness of a parsed JSON value (`0.0` and `-0.0` are falsy;
`nan` and the infinities are truthy). -/
def pyTruthy : Json → Bool
  | .null => false
  | .bool b => b
  | .num n => n != 0
  | .float q => q != 0
  | .nan => true
  | .inf _ => true
  | .str s => !s.isEmpty
  | .arr xs => !xs.isEmpty
  | .obj fs => !fs.isEmpty

/-- `params or {}` on the raw `message.get("params")` value. -/
def paramsOrEmpty (params : Option Json) : Json :=
  match params with
  | some v => if pyTruthy v then v else .obj []
  | none => .obj []

/-- `method.startswith("_")`: the first character is an underscore. -/
def startsWithUnderscore (s : String) : Bool :=
  match s.data with
  | c :: _ => c = '_'
  | [] => false

/-- `method[1:]`: Python slicing drops the first character. -/
def stripFirst (s : String) : String :=
  ⟨s.data.drop 1⟩

/-! ## Agent-side dispatch (`_handle_agent_*` of `acp/core.py`,
`acp/agent/handlers.py`)

The implementation object: required methods are total, optional methods are
`Option` (`isSome` is `hasattr`). Each handler returns an `Outcome` — its
return value, or the exception it raises. -/

/-- An `Agent` implementation as the dispatch sees it (`onInit` stands for
the implementation's `initialize` method, whose source name Lean reserves). -/
structure AgentImpl where
  onInit : Json → Outcome
  newSession : Json → Outcome
  prompt : Json → Outcome
  cancel : Json → Outcome
  loadSession : Option (Json → Outcome)
  setSessionMode : Option (Json → Outcome)
  setSessionModel : Option (Json → Outcome)
  authenticate : Option (Json → Outcome)
  extMethod : Option (String → Json → Outcome)
  extNotification : Option (String → Json → Outcome)

/-- `_handle_agent_init_methods`: `initialize` and `session/new`
(`none` is the `_NO_MATCH` sentinel). -/
def handle_agent_init_methods (env : SchemaEnv) (agent : AgentImpl)
    (method : Json) (params : Option Json) : Option Outcome :=
  if method.isStr (agentMethodName ("initialize")) then
    some (validateCall env ("InitializeRequest") params agent.onInit)
  else if method.isStr (agentMethodName ("session_new")) then
    some (validateCall env ("NewSessionRequest") params agent.newSession)
  else none

/-- `_handle_agent_session_methods`: `session/load`, `session/set_mode`,
`session/prompt`, `session/set_model`, `session/cancel`. The optional ones
raise `method_not_found` when the implementation lacks the attribute, and
normalize their return through `_optional_result` otherwise. -/
def handle_agent_session_methods (env : SchemaEnv) (agent : AgentImpl)
    (method : Json) (params : Option Json) : Option Outcome :=
  if method.isStr (agentMethodName ("session_load")) then
    some (match agent.loadSession with
      | none => methodNotFound method
      | some h => validateCall env ("LoadSessionRequest") params
          fun req => bindOptional (h req))
  else if method.isStr (agentMethodName ("session_set_mode")) then
    some (match agent.setSessionMode with
      | none => methodNotFound method
      | some h => validateCall env ("SetSessionModeRequest") params
          fun req => bindOptional (h req))
  else if method.isStr (agentMethodName ("session_prompt")) then
    some (validateCall env ("PromptRequest") params agent.prompt)
  else if method.isStr (agentMethodName ("session_set_model")) then
    some (match agent.setSessionModel with
      | none => methodNotFound method
      | some h => validateCall env ("SetSessionModelRequest") params
          fun req => bindOptional (h req))
  else if method.isStr (agentMethodName ("session_cancel")) then
    some (validateCall env ("CancelNotification") params agent.cancel)
  else none

/-- `_handle_agent_auth_methods`: `authenticate`. -/
def handle_agent_auth_methods (env : SchemaEnv) (agent : AgentImpl)
    (method : Json) (params : Option Json) : Option Outcome :=
  if method.isStr (agentMethodName ("authenticate")) then
    some (match agent.authenticate with
      | none => methodNotFound method
      | some h => validateCall env ("AuthenticateRequest") params
          fun req => bindOptional (h req))
  else none

/-- `_handle_agent_extension_methods`: a string method starting with `_` is
an extension; the underscore is stripped and the `extMethod` /
`extNotification` hook invoked with `(name, params or {})`. A request with
no `extMethod` hook is `_NO_MATCH`; a notification with no
`extNotification` hook returns `None`. -/
def handle_agent_extension_methods (agent : AgentImpl) (method : Json)
    (params : Option Json) (isNotification : Bool) : Option Outcome :=
  match method with
  | .str s =>
      if startsWithUnderscore s then
        let extName := stripFirst s
        if isNotification then
          some (match agent.extNotification with
            | some h =>
                match h extName (paramsOrEmpty params) with
                | .ok _ => .ok .vNone
                | e => e
            | none => .ok .vNone)
        else
          match agent.extMethod with
          | some h => some (h extName (paramsOrEmpty params))
          | none => none
      else none
  | _ => none

/-- `_handle_agent_method`: try the resolvers in order; a resolver's raised
exception propagates; when all return `_NO_MATCH`, raise
`method_not_found`. -/
def handle_agent_method (env : SchemaEnv) (agent : AgentImpl) (method : Json)
    (params : Option Json) (isNotification : Bool) : Outcome :=
  match handle_agent_init_methods env agent method params with
  | some r => r
  | none =>
  match handle_agent_session_methods env agent method params with
  | some r => r
  | none =>
  match handle_agent_auth_methods env agent method params with
  | some r => r
  | none =>
  match handle_agent_extension_methods agent method params isNotification with
  | some r => r
  | none => methodNotFound method

/-- `_create_agent_handler`: the connection handler closing over the agent. -/
def create_agent_handler (env : SchemaEnv) (agent : AgentImpl) : Handler :=
  fun method params isNotification =>
    handle_agent_method env agent method params isNotification

/-! ## Client-side dispatch (`_handle_client_*` of `acp/core.py`,
`acp/client/handlers.py`) -/

/-- A `Client` implementation as the dispatch sees it; the terminal methods
and the extension hooks are the optional ones. -/
structure ClientImpl where
  writeTextFile : Json → Outcome
  readTextFile : Json → Outcome
  requestPermission : Json → Outcome
  sessionUpdate : Json → Outcome
  createTerminal : Option (Json → Outcome)
  terminalOutput : Option (Json → Outcome)
  releaseTerminal : Option (Json → Outcome)
  waitForTerminalExit : Option (Json → Outcome)
  killTerminal : Option (Json → Outcome)
  extMethod : Option (String → Json → Outcome)
  extNotification : Option (String → Json → Outcome)

/-- `_handle_client_core_methods`: file system, permission, and
`session/update` (which returns `None` after the handler runs). -/
def handle_client_core_methods (env : SchemaEnv) (client : ClientImpl)
    (method : Json) (params : Option Json) : Option Outcome :=
  if method.isStr (clientMethodName ("fs_write_text_file")) then
    some (validateCall env ("WriteTextFileRequest") params client.writeTextFile)
  else if method.isStr (clientMethodName ("fs_read_text_file")) then
    some (validateCall env ("ReadTextFileRequest") params client.readTextFile)
  else if method.isStr (clientMethodName ("session_request_permission")) then
    some (validateCall env ("RequestPermissionRequest") params client.requestPermission)
  else if method.isStr (clientMethodName ("session_update")) then
    some (validateCall env ("SessionNotification") params fun req =>
      match client.sessionUpdate req with
      | .ok _ => .ok .vNone
      | e => e)
  else none

/-- `_handle_client_terminal_methods`: the optional terminal surface. An
absent `createTerminal`/`terminalOutput`/`waitForTerminalExit` returns
`None`; an absent `releaseTerminal`/`killTerminal` returns `{}`; present
`releaseTerminal`/`killTerminal` results go through `_optional_result`. -/
def handle_client_terminal_methods (env : SchemaEnv) (client : ClientImpl)
    (method : Json) (params : Option Json) : Option Outcome :=
  if method.isStr (clientMethodName ("terminal_create")) then
    some (match client.createTerminal with
      | none => .ok .vNone
      | some h => validateCall env ("CreateTerminalRequest") params h)
  else if method.isStr (clientMethodName ("terminal_output")) then
    some (match client.terminalOutput with
      | none => .ok .vNone
      | some h => validateCall env ("TerminalOutputRequest") params h)
  else if method.isStr (clientMethodName ("terminal_release")) then
    some (match client.releaseTerminal with
      | none => .ok (.vJson (.obj []))
      | some h => validateCall env ("ReleaseTerminalRequest") params
          fun req => bindOptional (h req))
  else if method.isStr (clientMethodName ("terminal_wait_for_exit")) then
    some (match client.waitForTerminalExit with
      | none => .ok .vNone
      | some h => validateCall env ("WaitForTerminalExitRequest") params h)
  else if method.isStr (clientMethodName ("terminal_kill")) then
    some (match client.killTerminal with
      | none => .ok (.vJson (.obj []))
      | some h => validateCall env ("KillTerminalCommandRequest") params
          fun req => bindOptional (h req))
  else none

/-- `_handle_client_extension_methods`: identical in shape to the agent-side
extension routing. -/
def handle_client_extension_methods (client : ClientImpl) (method : Json)
    (params : Option Json) (isNotification : Bool) : Option Outcome :=
  match method with
  | .str s =>
      if startsWithUnderscore s then
        let extName := stripFirst s
        if isNotification then
          some (match client.extNotification with
            | some h =>
                match h extName (paramsOrEmpty params) with
                | .ok _ => .ok .vNone
                | e => e
            | none => .ok .vNone)
        else
          match client.extMethod with
          | some h => some (h extName (paramsOrEmpty params))
          | none => none
      else none
  | _ => none

/-- `_handle_client_method`: resolvers in order, then extension routing, then
`method_not_found`. -/
def handle_client_method (env : SchemaEnv) (client : ClientImpl) (method : Json)
    (params : Option Json) (isNotification : Bool) : Outcome :=
  match handle_client_core_methods env client method params with
  | some r => r
  | none =>
  match handle_client_terminal_methods env client method params with
  | some r => r
  | none =>
  match handle_client_extension_methods client method params isNotification with
  | some r => r
  | none => methodNotFound method

/-- `_create_client_handler`. -/
def create_client_handler (env : SchemaEnv) (client : ClientImpl) : Handler :=
  fun method params isNotification =>
    handle_client_method env client method params isNotification

/-! ## Response models of the optional agent calls and the client-side facade

`ClientSideConnection.loadSession` / `setSessionMode` / `setSessionModel` /
`authenticate` coerce a non-dict peer result to `{}` before validating it
into the respective response model. -/

/-- The declared shape of a response model: field names with their schema
defaults (`none` marks a required field). -/
structure FieldSpec where
  name : String
  default : Option Json

/-- A response model's field specification. -/
abbrev ModelSpec := List FieldSpec

/-- Modelled from the spec: pydantic `model_validate` on a response model
(`acp.schema` is not among the provided sources). A JSON object validates
field by field — a present key supplies the value, an absent key falls back
to the schema default, and a missing required field fails; a non-object
fails outright. -/
def model_validate (spec : ModelSpec) (j : Json) : Except String Model :=
  match j with
  | .obj fs =>
      spec.mapM fun f =>
        match fs.lookup f.name, f.default with
        | some v, _ => Except.ok ⟨f.name, v, f.default⟩
        | none, some d => Except.ok ⟨f.name, d, f.default⟩
        | none, none => Except.error f.name
  | _ => Except.error ("not an object")

/-- Modelled from the spec: `LoadSessionResponse` carries no required data —
an "empty record" response type (§9, optional/empty-object result policy). -/
def LoadSessionResponseSpec : ModelSpec := []

/-- Modelled from the spec: `SetSessionModeResponse`, an empty record (§9). -/
def SetSessionModeResponseSpec : ModelSpec := []

/-- Modelled from the spec: `SetSessionModelResponse`, an empty record (§9). -/
def SetSessionModelResponseSpec : ModelSpec := []

/-- Modelled from the spec: `AuthenticateResponse`, an empty record (§9). -/
def AuthenticateResponseSpec : ModelSpec := []

/-- `payload = response if isinstance(response, dict) else {}` in the four
optional outbound calls of `ClientSideConnection`. -/
def coerceOptionalPayload (response : Json) : Json :=
  match response with
  | .obj fs => .obj fs
  | _ => .obj []

/-- `ClientSideConnection.loadSession`, from the peer's settled result to the
validated response model. -/
def clientLoadSession (response : Json) : Except String Model :=
  model_validate LoadSessionResponseSpec (coerceOptionalPayload response)

/-- `ClientSideConnection.setSessionMode`, result side. -/
def clientSetSessionMode (response : Json) : Except String Model :=
  model_validate SetSessionModeResponseSpec (coerceOptionalPayload response)

/-- `ClientSideConnection.setSessionModel`, result side. -/
def clientSetSessionModel (response : Json) : Except String Model :=
  model_validate SetSessionModelResponseSpec (coerceOptionalPayload response)

/-- `ClientSideConnection.authenticate`, result side. -/
def clientAuthenticate (response : Json) : Except String Model :=
  model_validate AuthenticateResponseSpec (coerceOptionalPayload response)

/-! ## Concrete fixtures used by witnesses and counterexamples -/

/-- A handler that returns `None` for everything. -/
def constHandler : Handler := fun _ _ _ => .ok .vNone

/-- A handler that raises a non-JSON exception. -/
def boomHandler : Handler := fun _ _ _ => .errOther ("boom")

/-- A handler that raises an exception whose `str` is valid JSON. -/
def jsonBoomHandler : Handler := fun _ _ _ =>
  .errOther ("\x7b\"kind\": \"disk\", \"errno\": 28\x7d")

/-- A handler raising an exception whose `str` is a JSON real literal. -/
def floatBoomHandler : Handler := fun _ _ _ => .errOther ("3.14")

/-- A handler raising an exception whose `str` looks numeric but is not
valid JSON (leading zeros). -/
def zerosBoomHandler : Handler := fun _ _ _ => .errOther ("007")

/-- The `InitializeResponse` the reference test agent returns:
`protocolVersion` set, `agentCapabilities` at its `null` default,
`authMethods` at its `[]` default. -/
def initRespModel : Model :=
  [⟨"protocolVersion", Json.num 1, none⟩,
   ⟨"agentCapabilities", Json.null, some Json.null⟩,
   ⟨"authMethods", Json.arr [], some (Json.arr [])⟩]

/-- A minimal agent implementing only the required methods: every optional
attribute (the four optional session/auth methods and the extension hooks)
is absent. -/
def bareAgent : AgentImpl :=
  { onInit := fun _ => .ok (.vModel initRespModel)
    newSession := fun _ => .ok (.vJson (.obj [("sessionId", .str ("test-session-123"))]))
    prompt := fun _ => .ok (.vJson (.obj [("stopReason", .str ("end_turn"))]))
    cancel := fun _ => .ok .vNone
    loadSession := none
    setSessionMode := none
    setSessionModel := none
    authenticate := none
    extMethod := none
    extNotification := none }

/-- An agent implementing every optional method, each returning `None`. -/
def fullAgent : AgentImpl :=
  { bareAgent with
    loadSession := some fun _ => .ok .vNone
    setSessionMode := some fun _ => .ok .vNone
    setSessionModel := some fun _ => .ok .vNone
    authenticate := some fun _ => .ok .vNone
    extMethod := some fun name ps => .ok (.vJson (.obj [("echoName", .str name), ("echoParams", ps)]))
    extNotification := some fun _ _ => .ok .vNone }

/-- A concrete `initialize` request frame. -/
def initReqMsg : Frame :=
  [("jsonrpc", Json.str ("2.0")), ("id", Json.num 0),
   ("method", Json.str ("initialize")),
   ("params", Json.obj [("protocolVersion", Json.num 1)])]

/-- A concrete `session/load` request frame. -/
def loadReqMsg : Frame :=
  [("jsonrpc", Json.str ("2.0")), ("id", Json.num 1),
   ("method", Json.str ("session/load")),
   ("params", Json.obj [("sessionId", Json.str ("s1"))])]

/-- A concrete `session/cancel` notification frame. -/
def cancelNoteMsg : Frame :=
  [("jsonrpc", Json.str ("2.0")), ("method", Json.str ("session/cancel")),
   ("params", Json.obj [("sessionId", Json.str ("s1"))])]

/-- A frame that is neither request, notification, nor response. -/
def junkMsg : Frame :=
  [("foo", Json.str ("bar"))]

/-! ## Theorems for the claims -/

/-- **C3.** Every inbound frame is classified into exactly one of three
kinds — request (`method` and `id` both present), notification (`method`,
no `id`), response (`id`, no non-null `method`) — and a frame fitting none
of the shapes is ignored: no frame is emitted, nothing is settled, no
handler runs, and the connection state is unchanged. A request is handed to
a handler task that emits exactly its response frame; a notification is
dispatched inline with no response. -/
theorem claim_c3_classification (handler : Handler) (s : ConnState) (msg : Frame) :
    (classify msg = .request ↔
      ((pyGet msg ("method")).isSome = true ∧ hasKey msg ("id") = true)) ∧
    (classify msg = .notification ↔
      ((pyGet msg ("method")).isSome = true ∧ hasKey msg ("id") = false)) ∧
    (classify msg = .response ↔
      ((pyGet msg ("method")).isSome = false ∧ hasKey msg ("id") = true)) ∧
    (classify msg = .ignored ↔
      ((pyGet msg ("method")).isSome = false ∧ hasKey msg ("id") = false)) ∧
    (classify msg = .request →
      process_message handler s msg = ⟨s, [handle_request handler msg], none, none⟩) ∧
    (classify msg = .notification →
      process_message handler s msg = ⟨s, [], none, some (handle_notification handler msg)⟩) ∧
    (classify msg = .response → (process_message handler s msg).sent = [] ∧
      (process_message handler s msg).notified = none) ∧
    (classify msg = .ignored →
      process_message handler s msg = ⟨s, [], none, none⟩) := by
  rcases h₁ : pyGet msg ("method") with _ | m <;>
    rcases h₂ : hasKey msg ("id") <;>
      simp [classify, process_message, h₁, h₂]

/-- Witness for C3 at a concrete junk frame (the shape of
`test_ignore_invalid_messages`): it is ignored and elicits no output. -/
theorem claim_c3_classification_witness :
    classify junkMsg = .ignored ∧
    process_message constHandler initConn junkMsg = ⟨initConn, [], none, none⟩ :=
  ⟨rfl, (claim_c3_classification constHandler initConn junkMsg).2.2.2.2.2.2.2 rfl⟩

/-- **C8.** Processing an inbound notification never emits a frame: the
handler runs inline with `is_notification = True` and its outcome — any
exception included — is suppressed, so no response or error frame and no
state change can result, whatever the handler does. -/
theorem claim_c8_notifications_silent (handler : Handler) (s : ConnState) (msg : Frame)
    (hclass : classify msg = .notification) :
    process_message handler s msg =
      ⟨s, [], none, some (handle_notification handler msg)⟩ := by
  simp [process_message, hclass]

/-- Witness for C8: a `session/cancel` notification whose handler raises
still produces no output frame and leaves the state unchanged. -/
theorem claim_c8_notifications_silent_witness :
    process_message boomHandler initConn cancelNoteMsg =
      ⟨initConn, [], none, some (.errOther ("boom"))⟩ :=
  claim_c8_notifications_silent boomHandler initConn cancelNoteMsg rfl

/-- **C9.** A response frame matching a pending id but carrying neither a
`result` nor an `error` key settles the pending call successfully with
`None`: the entry is removed and the sink receives `set_result(None)` — no
exception. -/
theorem claim_c9_bare_response_settles_none (handler : Handler) (s : ConnState)
    (msg : Frame) (k : Int)
    (hclass : classify msg = .response)
    (hid : msg.lookup ("id") = some (Json.num k))
    (hk : k ∈ s.pending)
    (hres : hasKey msg ("result") = false)
    (herr : hasKey msg ("error") = false) :
    process_message handler s msg =
      ⟨{ s with pending := s.pending.erase k }, [],
        some (k, .result Json.null), none⟩ := by
  simp [process_message, hclass, handle_response, idKey, hid, hk, hres, herr]

/-- Witness for C9: the bare response `{"jsonrpc":"2.0","id":0}` settles
pending id 0 with `None`. -/
theorem claim_c9_bare_response_settles_none_witness :
    process_message constHandler ⟨1, [0]⟩
        [("jsonrpc", Json.str ("2.0")), ("id", Json.num 0)] =
      ⟨⟨1, ([0] : List Int).erase 0⟩, [], some (0, .result Json.null), none⟩ :=
  claim_c9_bare_response_settles_none constHandler ⟨1, [0]⟩
    [("jsonrpc", Json.str ("2.0")), ("id", Json.num 0)] 0 rfl rfl
    (by simp) rfl rfl

/-- The id of an emitted request frame. -/
def frameId (f : Frame) : Option Json :=
  f.lookup ("id")

/-- From any state, `sendAll` emits frames whose ids are the consecutive
integers starting at the current counter, and advances the counter by the
number of calls. -/
theorem sendAll_ids (calls : List (String × Json)) (s : ConnState) :
    (sendAll s calls).2.map frameId =
      (List.range calls.length).map
        (fun i : Nat => some (Json.num (s.nextId + (i : Int)))) ∧
    (sendAll s calls).1.nextId = s.nextId + (calls.length : Int) := by
  induction calls generalizing s with
  | nil => simp [sendAll]
  | cons c rest ih =>
      obtain ⟨m, p⟩ := c
      obtain ⟨ih₁, ih₂⟩ := ih { nextId := s.nextId + 1, pending := s.pending ++ [s.nextId] }
      refine ⟨?_, ?_⟩
      · simp only [sendAll, send_request, List.map_cons, List.length_cons,
          List.range_succ_eq_map, List.map_map]
        refine congrArg₂ _ (by simp only [Nat.cast_zero, add_zero]; rfl) ?_
        rw [ih₁]
        refine List.map_congr_left fun i _ => ?_
        simp only [Function.comp_apply, Option.some.injEq, Json.num.injEq]
        push_cast
        ring
      · simp only [sendAll, send_request] at ih₂ ⊢
        rw [ih₂]
        simp only [List.length_cons]
        push_cast
        ring

/-- **C4.** For a sequence of `n` `send_request` calls on a fresh
connection, the allocated ids are exactly `0, 1, …, n-1` in order: the
counter starts at `0` and increases by exactly `1` per request, so every
prefix of the emitted request frames carries precisely the contiguous id
range `[0, k)`. -/
theorem claim_c4_request_ids (calls : List (String × Json)) (k : Nat)
    (hk : k ≤ calls.length) :
    ((sendAll initConn calls).2.take k).map frameId =
      (List.range k).map (fun i : Nat => some (Json.num (i : Int))) ∧
    (sendAll initConn calls).1.nextId = (calls.length : Int) := by
  obtain ⟨h₁, h₂⟩ := sendAll_ids calls initConn
  refine ⟨?_, by simpa [initConn] using h₂⟩
  rw [List.map_take, h₁, ← List.map_take, List.take_range, Nat.min_eq_left hk]
  simp [initConn]

/-- Witness for C4: three requests on a fresh connection are assigned ids
`0, 1, 2`, and the two-frame prefix carries exactly `[0, 2)`. -/
theorem claim_c4_request_ids_witness :
    2 ≤ ([(("initialize" : String), Json.null), ("session/new", Json.null),
          ("session/prompt", Json.null)] : List (String × Json)).length ∧
    (((sendAll initConn [(("initialize" : String), Json.null),
        ("session/new", Json.null), ("session/prompt", Json.null)]).2.take 2).map frameId =
      (List.range 2).map (fun i : Nat => some (Json.num (i : Int))) ∧
     (sendAll initConn [(("initialize" : String), Json.null),
        ("session/new", Json.null), ("session/prompt", Json.null)]).1.nextId = (3 : Int)) :=
  ⟨by decide,
   claim_c4_request_ids
     [(("initialize" : String), Json.null), ("session/new", Json.null),
      ("session/prompt", Json.null)] 2 (by decide)⟩

/-- A concrete response frame for pending id 3. -/
def respMsg3 : Frame :=
  [("jsonrpc", Json.str ("2.0")), ("id", Json.num 3), ("result", Json.num 7)]

/-- **C5.** A pending entry is settled at most once and is removed at the
moment it is settled: settling removes the id from the pending table, a
second response for the same id is then dropped, and a response whose id has
no pending entry leaves the state unchanged and settles nothing — no error
is raised. -/
theorem claim_c5_pending_single_settle (s : ConnState) (msg : Frame) (k : Int)
    (hnodup : s.pending.Nodup)
    (hid : msg.lookup ("id") = some (Json.num k)) :
    (k ∈ s.pending →
      (handle_response s msg).1.pending = s.pending.erase k ∧
      k ∉ (handle_response s msg).1.pending ∧
      (∃ a, (handle_response s msg).2 = some (k, a)) ∧
      handle_response (handle_response s msg).1 msg =
        ((handle_response s msg).1, none)) ∧
    (k ∉ s.pending → handle_response s msg = (s, none)) := by
  constructor
  · intro hk
    have hk' : k ∉ s.pending.erase k := hnodup.not_mem_erase
    by_cases hres : hasKey msg ("result") = true
    · simp [handle_response, idKey, hid, hk, hres, hk']
    · by_cases herr : hasKey msg ("error") = true
      · simp [handle_response, idKey, hid, hk, hres, herr, hk']
      · simp [handle_response, idKey, hid, hk, hres, herr, hk']
  · intro hk
    simp [handle_response, idKey, hid, hk]

/-- Witness for C5: settling pending id 3 removes it, yields a settlement,
and a duplicate of the same response is then dropped without change. -/
theorem claim_c5_pending_single_settle_witness :
    (handle_response ⟨2, [0, 3]⟩ respMsg3).1.pending = ([0, 3] : List Int).erase 3 ∧
    (3 : Int) ∉ (handle_response ⟨2, [0, 3]⟩ respMsg3).1.pending ∧
    (∃ a, (handle_response ⟨2, [0, 3]⟩ respMsg3).2 = some (3, a)) ∧
    handle_response (handle_response ⟨2, [0, 3]⟩ respMsg3).1 respMsg3 =
      ((handle_response ⟨2, [0, 3]⟩ respMsg3).1, none) :=
  (claim_c5_pending_single_settle ⟨2, [0, 3]⟩ respMsg3 3 (by decide) rfl).1
    (by decide)

/-- **C7.** An inbound request whose handler raises an exception that is
neither a `RequestError` nor a `ValidationError` is answered with an
`internal_error` response (code `-32603`) whose `data` is the JSON parse of
`str(exc)` when that string is valid JSON, and `{"details": str(exc)}`
otherwise. -/
theorem claim_c7_internal_error (handler : Handler) (s : ConnState) (msg : Frame)
    (e : String)
    (hclass : classify msg = .request)
    (h : handler (getIndex msg ("method")) (pyGet msg ("params")) false = .errOther e) :
    process_message handler s msg =
      ⟨s, [[("jsonrpc", Json.str ("2.0")), ("id", getIndex msg ("id")),
           ("error", errorObj (-32603) ("Internal error") (internalErrorData e))]],
        none, none⟩ ∧
    (∀ j, jsonLoads e = some j → internalErrorData e = j) ∧
    (jsonLoads e = none →
      internalErrorData e = Json.obj [("details", Json.str e)]) := by
  refine ⟨?_, ?_, ?_⟩
  · simp [process_message, hclass, handle_request, h]
  · intro j hj
    simp [internalErrorData, hj]
  · intro hj
    simp [internalErrorData, hj]

/-- Witness for C7, on both sides of the valid-JSON boundary: a handler
raising a non-JSON exception yields `data = {"details": "boom"}`; one
raising an exception whose string is JSON yields the parsed value as
`data` — an object, and a float literal `"3.14"`; and the leading-zero
string `"007"`, which `json.loads` rejects, falls back to the details
object. -/
theorem claim_c7_internal_error_witness :
    process_message boomHandler initConn initReqMsg =
      ⟨initConn, [[("jsonrpc", Json.str ("2.0")), ("id", Json.num 0),
        ("error", errorObj (-32603) ("Internal error")
          (Json.obj [("details", Json.str ("boom"))]))]], none, none⟩ ∧
    process_message jsonBoomHandler initConn initReqMsg =
      ⟨initConn, [[("jsonrpc", Json.str ("2.0")), ("id", Json.num 0),
        ("error", errorObj (-32603) ("Internal error")
          (Json.obj [("kind", Json.str ("disk")), ("errno", Json.num 28)]))]],
        none, none⟩ ∧
    process_message floatBoomHandler initConn initReqMsg =
      ⟨initConn, [[("jsonrpc", Json.str ("2.0")), ("id", Json.num 0),
        ("error", errorObj (-32603) ("Internal error")
          (Json.float (mkRat 157 50)))]], none, none⟩ ∧
    process_message zerosBoomHandler initConn initReqMsg =
      ⟨initConn, [[("jsonrpc", Json.str ("2.0")), ("id", Json.num 0),
        ("error", errorObj (-32603) ("Internal error")
          (Json.obj [("details", Json.str ("007"))]))]], none, none⟩ :=
  ⟨(claim_c7_internal_error boomHandler initConn initReqMsg ("boom") rfl rfl).1,
   (claim_c7_internal_error jsonBoomHandler initConn initReqMsg
      ("\x7b\"kind\": \"disk\", \"errno\": 28\x7d") rfl rfl).1,
   (claim_c7_internal_error floatBoomHandler initConn initReqMsg
      ("3.14") rfl rfl).1,
   (claim_c7_internal_error zerosBoomHandler initConn initReqMsg
      ("007") rfl rfl).1⟩

/-- **C2, counterexample.** The claim says the result object of a response
omits every unset, null, or default-valued field. But `_handle_request`
dumps a `BaseModel` result with a *plain* `model_dump()`: on the reference
`initialize` exchange, the emitted result keeps `agentCapabilities` (value
`null`, equal to its default) and `authMethods` (its `[]` default). The
omit-unset/null/default serialization (`_dump_params`) of the same model
would instead be `{"protocolVersion": 1}`. -/
theorem claim_c2_counterexample :
    (process_message (create_agent_handler passthroughEnv bareAgent) initConn
        initReqMsg).sent =
      [[("jsonrpc", Json.str ("2.0")), ("id", Json.num 0),
        ("result", Json.obj [("protocolVersion", Json.num 1),
          ("agentCapabilities", Json.null), ("authMethods", Json.arr [])])]] ∧
    dump_params initRespModel = Json.obj [("protocolVersion", Json.num 1)] :=
  ⟨rfl, rfl⟩

/-- **C2, amended.** For every inbound request whose handler returns a
schema model value, the result object emitted in the response frame is the
model's full plain dump: every field appears with its current value — unset,
null, and default-valued fields included. (The omit-unset/null/default rule
applies to outbound request params via `_dump_params`, not to results.) -/
theorem claim_c2_result_full_dump (handler : Handler) (s : ConnState)
    (msg : Frame) (m : Model)
    (hclass : classify msg = .request)
    (h : handler (getIndex msg ("method")) (pyGet msg ("params")) false =
      .ok (.vModel m)) :
    (process_message handler s msg).sent =
      [[("jsonrpc", Json.str ("2.0")), ("id", getIndex msg ("id")),
        ("result", model_dump m)]] ∧
    model_dump m = Json.obj (m.map fun f => (f.name, f.value)) := by
  refine ⟨?_, rfl⟩
  simp [process_message, hclass, handle_request, h, resultJson]

/-- Witness for the amended C2 at the reference `initialize` exchange. -/
theorem claim_c2_result_full_dump_witness :
    (process_message (create_agent_handler passthroughEnv bareAgent) initConn
        initReqMsg).sent =
      [[("jsonrpc", Json.str ("2.0")), ("id", Json.num 0),
        ("result", model_dump initRespModel)]] ∧
    model_dump initRespModel =
      Json.obj (initRespModel.map fun f => (f.name, f.value)) :=
  claim_c2_result_full_dump (create_agent_handler passthroughEnv bareAgent)
    initConn initReqMsg initRespModel rfl rfl

/-- **C1, counterexample.** The claim says an optional agent method whose
handler is absent yields an empty-object result. But on an agent lacking
`loadSession`, a `session/load` request is answered with a
`method_not_found` *error* response — no frame carries a `result`. -/
theorem claim_c1_counterexample :
    (process_message (create_agent_handler passthroughEnv bareAgent) initConn
        loadReqMsg).sent =
      [[("jsonrpc", Json.str ("2.0")), ("id", Json.num 1),
        ("error", errorObj (-32601) ("Method not found")
          (Json.obj [("method", Json.str ("session/load"))]))]] ∧
    ((process_message (create_agent_handler passthroughEnv bareAgent) initConn
        loadReqMsg).sent.map (fun fr => fr.lookup ("result"))) = [none] :=
  ⟨rfl, rfl⟩

@[simp] theorem agentMethodName_init :
    agentMethodName ("initialize") = "initialize" := rfl

@[simp] theorem agentMethodName_auth :
    agentMethodName ("authenticate") = "authenticate" := rfl

@[simp] theorem agentMethodName_new :
    agentMethodName ("session_new") = "session/new" := rfl

@[simp] theorem agentMethodName_load :
    agentMethodName ("session_load") = "session/load" := rfl

@[simp] theorem agentMethodName_set_mode :
    agentMethodName ("session_set_mode") = "session/set_mode" := rfl

@[simp] theorem agentMethodName_set_model :
    agentMethodName ("session_set_model") = "session/set_model" := rfl

@[simp] theorem agentMethodName_prompt :
    agentMethodName ("session_prompt") = "session/prompt" := rfl

@[simp] theorem agentMethodName_cancel :
    agentMethodName ("session_cancel") = "session/cancel" := rfl

/-- **C1, amended.** For the optional agent-served methods `session/load`,
`session/set_mode`, `session/set_model`, and `authenticate`: when the
implementation has the handler and it returns `None`, the dispatch produces
the empty-object result `{}`; when the implementation lacks the handler, the
dispatch raises `method_not_found` and the response is that error, not an
empty result. -/
theorem claim_c1_optional_methods (env : SchemaEnv) (agent : AgentImpl)
    (params : Option Json) (isNotif : Bool) (handler : Handler)
    (s : ConnState) (msg : Frame) :
    (agent.loadSession = none →
      handle_agent_method env agent (Json.str ("session/load")) params isNotif =
        methodNotFound (Json.str ("session/load"))) ∧
    (∀ h req, agent.loadSession = some h →
      env.validate ("LoadSessionRequest") params = Except.ok req →
      h req = .ok .vNone →
      handle_agent_method env agent (Json.str ("session/load")) params isNotif =
        .ok (.vJson (Json.obj []))) ∧
    (agent.setSessionMode = none →
      handle_agent_method env agent (Json.str ("session/set_mode")) params isNotif =
        methodNotFound (Json.str ("session/set_mode"))) ∧
    (∀ h req, agent.setSessionMode = some h →
      env.validate ("SetSessionModeRequest") params = Except.ok req →
      h req = .ok .vNone →
      handle_agent_method env agent (Json.str ("session/set_mode")) params isNotif =
        .ok (.vJson (Json.obj []))) ∧
    (agent.setSessionModel = none →
      handle_agent_method env agent (Json.str ("session/set_model")) params isNotif =
        methodNotFound (Json.str ("session/set_model"))) ∧
    (∀ h req, agent.setSessionModel = some h →
      env.validate ("SetSessionModelRequest") params = Except.ok req →
      h req = .ok .vNone →
      handle_agent_method env agent (Json.str ("session/set_model")) params isNotif =
        .ok (.vJson (Json.obj []))) ∧
    (agent.authenticate = none →
      handle_agent_method env agent (Json.str ("authenticate")) params isNotif =
        methodNotFound (Json.str ("authenticate"))) ∧
    (∀ h req, agent.authenticate = some h →
      env.validate ("AuthenticateRequest") params = Except.ok req →
      h req = .ok .vNone →
      handle_agent_method env agent (Json.str ("authenticate")) params isNotif =
        .ok (.vJson (Json.obj []))) ∧
    (classify msg = .request →
      handler (getIndex msg ("method")) (pyGet msg ("params")) false =
        .ok (.vJson (Json.obj [])) →
      (process_message handler s msg).sent =
        [[("jsonrpc", Json.str ("2.0")), ("id", getIndex msg ("id")),
          ("result", Json.obj [])]]) ∧
    (∀ c m d, classify msg = .request →
      handler (getIndex msg ("method")) (pyGet msg ("params")) false =
        .errRequest c m d →
      (process_message handler s msg).sent =
        [[("jsonrpc", Json.str ("2.0")), ("id", getIndex msg ("id")),
          ("error", errorObj c m d)]]) := by
  refine ⟨?_, ?_, ?_, ?_, ?_, ?_, ?_, ?_, ?_, ?_⟩
  · intro hab
    simp [handle_agent_method, handle_agent_init_methods,
      handle_agent_session_methods,
      Json.isStr, hab]
  · intro h req hpres hval hret
    simp [handle_agent_method, handle_agent_init_methods,
      handle_agent_session_methods,
      Json.isStr, validateCall, bindOptional, optional_result,
      hpres, hval, hret]
  · intro hab
    simp [handle_agent_method, handle_agent_init_methods,
      handle_agent_session_methods,
      Json.isStr, hab]
  · intro h req hpres hval hret
    simp [handle_agent_method, handle_agent_init_methods,
      handle_agent_session_methods,
      Json.isStr, validateCall, bindOptional, optional_result,
      hpres, hval, hret]
  · intro hab
    simp [handle_agent_method, handle_agent_init_methods,
      handle_agent_session_methods,
      Json.isStr, hab]
  · intro h req hpres hval hret
    simp [handle_agent_method, handle_agent_init_methods,
      handle_agent_session_methods,
      Json.isStr, validateCall, bindOptional, optional_result,
      hpres, hval, hret]
  · intro hab
    simp [handle_agent_method, handle_agent_init_methods,
      handle_agent_session_methods, handle_agent_auth_methods,
      Json.isStr, hab]
  · intro h req hpres hval hret
    simp [handle_agent_method, handle_agent_init_methods,
      handle_agent_session_methods, handle_agent_auth_methods,
      Json.isStr, validateCall,
      bindOptional, optional_result, hpres, hval, hret]
  · intro hclass hret
    simp [process_message, hclass, handle_request, hret, resultJson]
  · intro c m d hclass hret
    simp [process_message, hclass, handle_request, hret]

/-- Witness for the amended C1: on `session/load`, an agent lacking the
handler gets `method_not_found`; an agent whose handler returns `None`
yields the `{}` result, and through the connection the response frame
carries `"result": {}`. -/
theorem claim_c1_optional_methods_witness :
    (handle_agent_method passthroughEnv bareAgent (Json.str ("session/load"))
        (some (Json.obj [("sessionId", Json.str ("s1"))])) false =
      methodNotFound (Json.str ("session/load"))) ∧
    (handle_agent_method passthroughEnv fullAgent (Json.str ("session/load"))
        (some (Json.obj [("sessionId", Json.str ("s1"))])) false =
      .ok (.vJson (Json.obj []))) ∧
    ((process_message (create_agent_handler passthroughEnv fullAgent) initConn
        loadReqMsg).sent =
      [[("jsonrpc", Json.str ("2.0")), ("id", Json.num 1),
        ("result", Json.obj [])]]) :=
  ⟨(claim_c1_optional_methods passthroughEnv bareAgent
      (some (Json.obj [("sessionId", Json.str ("s1"))])) false constHandler
      initConn loadReqMsg).1 rfl,
   (claim_c1_optional_methods passthroughEnv fullAgent
      (some (Json.obj [("sessionId", Json.str ("s1"))])) false constHandler
      initConn loadReqMsg).2.1 _ _ rfl rfl rfl,
   (claim_c1_optional_methods passthroughEnv fullAgent
      (some (Json.obj [("sessionId", Json.str ("s1"))])) false
      (create_agent_handler passthroughEnv fullAgent) initConn
      loadReqMsg).2.2.2.2.2.2.2.2.1 rfl rfl⟩

@[simp] theorem clientMethodName_update :
    clientMethodName ("session_update") = "session/update" := rfl

@[simp] theorem clientMethodName_permission :
    clientMethodName ("session_request_permission") = "session/request_permission" := rfl

@[simp] theorem clientMethodName_read :
    clientMethodName ("fs_read_text_file") = "fs/read_text_file" := rfl

@[simp] theorem clientMethodName_write :
    clientMethodName ("fs_write_text_file") = "fs/write_text_file" := rfl

@[simp] theorem clientMethodName_tcreate :
    clientMethodName ("terminal_create") = "terminal/create" := rfl

@[simp] theorem clientMethodName_toutput :
    clientMethodName ("terminal_output") = "terminal/output" := rfl

@[simp] theorem clientMethodName_trelease :
    clientMethodName ("terminal_release") = "terminal/release" := rfl

@[simp] theorem clientMethodName_twait :
    clientMethodName ("terminal_wait_for_exit") = "terminal/wait_for_exit" := rfl

@[simp] theorem clientMethodName_tkill :
    clientMethodName ("terminal_kill") = "terminal/kill" := rfl

/-- A method string starting with an underscore differs from every string
that does not start with one. -/
theorem startsWithUnderscore_ne {s t : String}
    (hs : startsWithUnderscore s = true)
    (ht : t.data.head? ≠ some '_') : s ≠ t := by
  intro heq
  subst heq
  apply ht
  unfold startsWithUnderscore at hs
  rcases hd : s.data with _ | ⟨c, cs⟩
  · rw [hd] at hs
    exact absurd hs (by simp)
  · rw [hd] at hs
    simp only [decide_eq_true_eq] at hs
    simp [hd, hs]

/-- On an underscore-prefixed method, every named agent resolver is
`_NO_MATCH` and the dispatch reduces to the extension resolver, with
`method_not_found` as the fallback. -/
theorem handle_agent_method_underscore (env : SchemaEnv) (agent : AgentImpl)
    (mstr : String) (params : Option Json) (isNotif : Bool)
    (hund : startsWithUnderscore mstr = true) :
    handle_agent_method env agent (Json.str mstr) params isNotif =
      (match handle_agent_extension_methods agent (Json.str mstr) params isNotif with
       | some r => r
       | none => methodNotFound (Json.str mstr)) := by
  have h₁ : mstr ≠ "initialize" := startsWithUnderscore_ne hund (by decide)
  have h₂ : mstr ≠ "session/new" := startsWithUnderscore_ne hund (by decide)
  have h₃ : mstr ≠ "session/load" := startsWithUnderscore_ne hund (by decide)
  have h₄ : mstr ≠ "session/set_mode" := startsWithUnderscore_ne hund (by decide)
  have h₅ : mstr ≠ "session/prompt" := startsWithUnderscore_ne hund (by decide)
  have h₆ : mstr ≠ "session/set_model" := startsWithUnderscore_ne hund (by decide)
  have h₇ : mstr ≠ "session/cancel" := startsWithUnderscore_ne hund (by decide)
  have h₈ : mstr ≠ "authenticate" := startsWithUnderscore_ne hund (by decide)
  simp [handle_agent_method, handle_agent_init_methods,
    handle_agent_session_methods, handle_agent_auth_methods, Json.isStr,
    h₁, h₂, h₃, h₄, h₅, h₆, h₇, h₈]

/-- On an underscore-prefixed method, every named client resolver is
`_NO_MATCH` and the dispatch reduces to the extension resolver, with
`method_not_found` as the fallback. -/
theorem handle_client_method_underscore (env : SchemaEnv) (client : ClientImpl)
    (mstr : String) (params : Option Json) (isNotif : Bool)
    (hund : startsWithUnderscore mstr = true) :
    handle_client_method env client (Json.str mstr) params isNotif =
      (match handle_client_extension_methods client (Json.str mstr) params isNotif with
       | some r => r
       | none => methodNotFound (Json.str mstr)) := by
  have h₁ : mstr ≠ "fs/write_text_file" := startsWithUnderscore_ne hund (by decide)
  have h₂ : mstr ≠ "fs/read_text_file" := startsWithUnderscore_ne hund (by decide)
  have h₃ : mstr ≠ "session/request_permission" := startsWithUnderscore_ne hund (by decide)
  have h₄ : mstr ≠ "session/update" := startsWithUnderscore_ne hund (by decide)
  have h₅ : mstr ≠ "terminal/create" := startsWithUnderscore_ne hund (by decide)
  have h₆ : mstr ≠ "terminal/output" := startsWithUnderscore_ne hund (by decide)
  have h₇ : mstr ≠ "terminal/release" := startsWithUnderscore_ne hund (by decide)
  have h₈ : mstr ≠ "terminal/wait_for_exit" := startsWithUnderscore_ne hund (by decide)
  have h₉ : mstr ≠ "terminal/kill" := startsWithUnderscore_ne hund (by decide)
  simp [handle_client_method, handle_client_core_methods,
    handle_client_terminal_methods, Json.isStr,
    h₁, h₂, h₃, h₄, h₅, h₆, h₇, h₈, h₉]

/-- **C6.** An inbound method whose wire name begins with an underscore is
routed as an extension on both sides: the leading underscore is stripped
before the name reaches the implementation's `extMethod`/`extNotification`
hook (with `params or {}`); a request on an implementation lacking
`extMethod` is answered `method_not_found`, and a notification on an
implementation lacking `extNotification` is silently dropped with no
output. -/
theorem claim_c6_extension_routing (env : SchemaEnv) (agent : AgentImpl)
    (client : ClientImpl) (mstr : String) (params : Option Json)
    (handler : Handler) (s : ConnState) (msg : Frame)
    (hund : startsWithUnderscore mstr = true) :
    (∀ h, agent.extMethod = some h →
      handle_agent_method env agent (Json.str mstr) params false =
        h (stripFirst mstr) (paramsOrEmpty params)) ∧
    (∀ h, agent.extNotification = some h →
      handle_agent_method env agent (Json.str mstr) params true =
        (match h (stripFirst mstr) (paramsOrEmpty params) with
         | .ok _ => .ok .vNone
         | e => e)) ∧
    (agent.extMethod = none →
      handle_agent_method env agent (Json.str mstr) params false =
        methodNotFound (Json.str mstr)) ∧
    (agent.extNotification = none →
      handle_agent_method env agent (Json.str mstr) params true = .ok .vNone) ∧
    (∀ h, client.extMethod = some h →
      handle_client_method env client (Json.str mstr) params false =
        h (stripFirst mstr) (paramsOrEmpty params)) ∧
    (∀ h, client.extNotification = some h →
      handle_client_method env client (Json.str mstr) params true =
        (match h (stripFirst mstr) (paramsOrEmpty params) with
         | .ok _ => .ok .vNone
         | e => e)) ∧
    (client.extMethod = none →
      handle_client_method env client (Json.str mstr) params false =
        methodNotFound (Json.str mstr)) ∧
    (client.extNotification = none →
      handle_client_method env client (Json.str mstr) params true = .ok .vNone) ∧
    (classify msg = .request →
      handler (getIndex msg ("method")) (pyGet msg ("params")) false =
        methodNotFound (Json.str mstr) →
      (process_message handler s msg).sent =
        [[("jsonrpc", Json.str ("2.0")), ("id", getIndex msg ("id")),
          ("error", errorObj (-32601) ("Method not found")
            (Json.obj [("method", Json.str mstr)]))]]) ∧
    (classify msg = .notification →
      (process_message handler s msg).sent = []) := by
  refine ⟨?_, ?_, ?_, ?_, ?_, ?_, ?_, ?_, ?_, ?_⟩
  · intro h hh
    rw [handle_agent_method_underscore env agent mstr params false hund]
    simp [handle_agent_extension_methods, hund, hh]
  · intro h hh
    rw [handle_agent_method_underscore env agent mstr params true hund]
    simp [handle_agent_extension_methods, hund, hh]
  · intro hh
    rw [handle_agent_method_underscore env agent mstr params false hund]
    simp [handle_agent_extension_methods, hund, hh]
  · intro hh
    rw [handle_agent_method_underscore env agent mstr params true hund]
    simp [handle_agent_extension_methods, hund, hh]
  · intro h hh
    rw [handle_client_method_underscore env client mstr params false hund]
    simp [handle_client_extension_methods, hund, hh]
  · intro h hh
    rw [handle_client_method_underscore env client mstr params true hund]
    simp [handle_client_extension_methods, hund, hh]
  · intro hh
    rw [handle_client_method_underscore env client mstr params false hund]
    simp [handle_client_extension_methods, hund, hh]
  · intro hh
    rw [handle_client_method_underscore env client mstr params true hund]
    simp [handle_client_extension_methods, hund, hh]
  · intro hclass hret
    simp [process_message, hclass, handle_request, hret, methodNotFound]
  · intro hclass
    simp [process_message, hclass]

/-- A minimal client lacking every optional method and both extension
hooks. -/
def bareClient : ClientImpl :=
  { writeTextFile := fun _ => .ok .vNone
    readTextFile := fun _ => .ok (.vJson (.obj [("content", .str ("default content"))]))
    requestPermission := fun _ => .ok .vNone
    sessionUpdate := fun _ => .ok .vNone
    createTerminal := none
    terminalOutput := none
    releaseTerminal := none
    waitForTerminalExit := none
    killTerminal := none
    extMethod := none
    extNotification := none }

/-- A concrete `_ping` extension request frame. -/
def extReqMsg : Frame :=
  [("jsonrpc", Json.str ("2.0")), ("id", Json.num 7),
   ("method", Json.str ("_ping")), ("params", Json.obj [("x", Json.num 1)])]

/-- A concrete `_ping` extension notification frame. -/
def extNoteMsg : Frame :=
  [("jsonrpc", Json.str ("2.0")), ("method", Json.str ("_ping")),
   ("params", Json.obj [("x", Json.num 1)])]

/-- Witness for C6: `_ping` reaches a present `extMethod` hook as `ping`;
with the hooks absent, the request gets `method_not_found` (also as a full
response frame) and the notification is dropped without output. -/
theorem claim_c6_extension_routing_witness :
    (handle_agent_method passthroughEnv fullAgent (Json.str ("_ping"))
        (some (Json.obj [("x", Json.num 1)])) false =
      .ok (.vJson (Json.obj [("echoName", Json.str ("ping")),
        ("echoParams", Json.obj [("x", Json.num 1)])]))) ∧
    (handle_agent_method passthroughEnv bareAgent (Json.str ("_ping"))
        (some (Json.obj [("x", Json.num 1)])) false =
      methodNotFound (Json.str ("_ping"))) ∧
    (handle_agent_method passthroughEnv bareAgent (Json.str ("_ping"))
        (some (Json.obj [("x", Json.num 1)])) true = .ok .vNone) ∧
    (handle_client_method passthroughEnv bareClient (Json.str ("_ping"))
        (some (Json.obj [("x", Json.num 1)])) false =
      methodNotFound (Json.str ("_ping"))) ∧
    ((process_message (create_agent_handler passthroughEnv bareAgent) initConn
        extReqMsg).sent =
      [[("jsonrpc", Json.str ("2.0")), ("id", Json.num 7),
        ("error", errorObj (-32601) ("Method not found")
          (Json.obj [("method", Json.str ("_ping"))]))]]) ∧
    ((process_message (create_agent_handler passthroughEnv bareAgent) initConn
        extNoteMsg).sent = []) :=
  ⟨(claim_c6_extension_routing passthroughEnv fullAgent bareClient "_ping"
      (some (Json.obj [("x", Json.num 1)])) constHandler initConn extReqMsg
      rfl).1 _ rfl,
   (claim_c6_extension_routing passthroughEnv bareAgent bareClient "_ping"
      (some (Json.obj [("x", Json.num 1)])) constHandler initConn extReqMsg
      rfl).2.2.1 rfl,
   (claim_c6_extension_routing passthroughEnv bareAgent bareClient "_ping"
      (some (Json.obj [("x", Json.num 1)])) constHandler initConn extReqMsg
      rfl).2.2.2.1 rfl,
   (claim_c6_extension_routing passthroughEnv bareAgent bareClient "_ping"
      (some (Json.obj [("x", Json.num 1)])) constHandler initConn extReqMsg
      rfl).2.2.2.2.2.2.1 rfl,
   (claim_c6_extension_routing passthroughEnv bareAgent bareClient "_ping"
      (some (Json.obj [("x", Json.num 1)]))
      (create_agent_handler passthroughEnv bareAgent) initConn extReqMsg
      rfl).2.2.2.2.2.2.2.2.1 rfl rfl,
   (claim_c6_extension_routing passthroughEnv bareAgent bareClient "_ping"
      (some (Json.obj [("x", Json.num 1)]))
      (create_agent_handler passthroughEnv bareAgent) initConn extNoteMsg
      rfl).2.2.2.2.2.2.2.2.2 rfl⟩

/-- **C10.** The client-side facade's optional outbound calls `loadSession`,
`setSessionMode`, `setSessionModel`, and `authenticate` coerce any
non-object peer result (for example `null`) to `{}` before response
validation, so each returns the default-valued response object instead of
raising a validation error. -/
theorem claim_c10_optional_result_coercion (r : Json)
    (hr : ∀ fs, r ≠ Json.obj fs) :
    coerceOptionalPayload r = Json.obj [] ∧
    clientLoadSession r = Except.ok [] ∧
    clientSetSessionMode r = Except.ok [] ∧
    clientSetSessionModel r = Except.ok [] ∧
    clientAuthenticate r = Except.ok [] := by
  have hco : coerceOptionalPayload r = Json.obj [] := by
    cases r
    case obj fs => exact absurd rfl (hr fs)
    all_goals rfl
  refine ⟨hco, ?_, ?_, ?_, ?_⟩ <;>
    · simp only [clientLoadSession, clientSetSessionMode,
        clientSetSessionModel, clientAuthenticate, hco]
      rfl

/-- Witness for C10 at the peer result `null`: all four calls validate an
empty object and succeed with the default response. -/
theorem claim_c10_optional_result_coercion_witness :
    coerceOptionalPayload Json.null = Json.obj [] ∧
    clientLoadSession Json.null = Except.ok [] ∧
    clientSetSessionMode Json.null = Except.ok [] ∧
    clientSetSessionModel Json.null = Except.ok [] ∧
    clientAuthenticate Json.null = Except.ok [] :=
  claim_c10_optional_result_coercion Json.null fun _ h => Json.noConfusion h

end Acp
